import Mathlib

/-!
Verification of the seat-map / reservation core of the Airplane Management
System (C++ repository `Project_Implementation`).

Shallow embedding conventions:
* C++ `std::string` values are modelled as Lean `String` (ids, names) or as
  `List Char` when the code inspects characters (seat codes, date strings).
* C++ `int` is modelled as `Int`; where `std::stoi` can throw
  `std::out_of_range`, the 32-bit bounds are modelled explicitly.
* C++ `float`/`double` arithmetic (prices, loyalty points) is modelled as
  exact rational arithmetic over `Rat`; the float literals `0.1f`/`0.3f` are
  idealised as `1/10`/`3/10`.
* Functions that can throw (`std::invalid_argument`, `std::stoi` failures)
  return `Option`/`Except`.
* Singleton repositories (`unordered_map` keyed by id) are modelled as lists
  of records, looked up by `List.find?` on the id field; mutation through a
  `shared_ptr` held by a repository is modelled as a functional update of
  the corresponding list entry.
* Random unique-id generation (`IDGenerator` retry loops) is modelled by
  passing the generated id explicitly; theorems that need it assume the id
  is fresh, which is exactly the loop's postcondition.
-/

namespace AMS

/-! ## Definitions: the shallow embedding of the program -/

/-- Character class used by `find_first_not_of("0123456789")` in
`FlightModel::getSeatIndices` and by `std::isdigit` in the validators
(codes 48-57 are the digits). -/
def isSeatDigit (c : Char) : Bool := decide (48 ≤ c.toNat) && decide (c.toNat ≤ 57)

/-- Whitespace skipped by `std::stoi` (via `strtol`), i.e. `std::isspace`:
space (32), tab (9), newline (10), vertical tab (11), form feed (12),
carriage return (13). -/
def isCppSpace (c : Char) : Bool :=
  decide (c.toNat = 32) || decide (9 ≤ c.toNat ∧ c.toNat ≤ 13)

/-- Value of a decimal digit string, most significant digit first: the value
`std::stoi` computes from the digit run it accepts. -/
def parseRow (ds : List Char) : Nat :=
  ds.foldl (fun a c => a * 10 + (c.toNat - 48)) 0

/-- Digits consumed and value produced once `std::stoi` has skipped
whitespace and an optional sign: the longest leading digit run; empty run
means `std::invalid_argument`, a value outside 32-bit `int`
means `std::out_of_range` (both modelled as `none`). -/
def stoiAfterSign (sign : Int) (t : List Char) : Option Int :=
  let ds := t.takeWhile isSeatDigit
  if ds = [] then none
  else if (if sign < 0 then (2147483648 : Int) else 2147483647) < (parseRow ds : Int) then none
  else some (sign * (parseRow ds : Int))

/-- Model of `std::stoi` on a character list: skip whitespace, optional sign, longest
digit run; trailing characters are ignored. `none` models a thrown
exception. -/
def stoiChars (s : List Char) : Option Int :=
  match s.dropWhile isCppSpace with
  | [] => none
  | c :: t =>
    if c.toNat = 45 then stoiAfterSign (-1) t
    else if c.toNat = 43 then stoiAfterSign 1 t
    else stoiAfterSign 1 (c :: t)

structure AircraftModel where
  aircraftId : String
  model : String
  capacity : Int
  numOfRowSeats : Int
  numOfRows : Int
deriving DecidableEq, Repr

/-- Model of `AircraftRepository::findAircraftById` on the in-memory map. -/
def findAircraftById (repo : List AircraftModel) (id : String) : Option AircraftModel :=
  repo.find? (fun a => a.aircraftId = id)

/-- Model of `AircraftModel::AircraftModel(model, capacity, numOfRowSeats)`.
The C++ constructor also draws a fresh `"AC-"` id from `IDGenerator`;
the id is passed explicitly here. `MAX_SEATS_PER_ROW = 26`. -/
def mkAircraftModel (aircraftId model : String) (capacity numOfRowSeats : Int) :
    Except String AircraftModel :=
  if model = "" then .error "Aircraft model cannot be empty."
  else if capacity ≤ 0 then .error "Aircraft capacity must be positive."
  else if numOfRowSeats ≤ 0 then .error "Number of row seats must be positive."
  else if 26 < numOfRowSeats then .error "Number of row seats cannot be greater than 26."
  else if capacity % numOfRowSeats ≠ 0 then
    .error "Aircraft capacity must be a multiple of the number of seats per row."
  else .ok ⟨aircraftId, model, capacity, numOfRowSeats, capacity / numOfRowSeats⟩

/-- The serialised form written by `AircraftModel::to_json`: a JSON object
with exactly these keys. -/
structure AircraftJSON where
  id : String
  model : String
  capacity : Int
  numOfRowSeats : Int
deriving DecidableEq, Repr

/-- Model of `AircraftModel::AircraftModel(const JSON&)` (the missing-key checks are
subsumed by the typed record). `substr(0,3) != "AC-"` is the prefix test,
expressed on the character list. -/
def aircraftFromJson (j : AircraftJSON) : Except String AircraftModel :=
  if ¬ (j.id.data.take 3 = ['A', 'C', '-']) then .error "Invalid ID for AircraftModel"
  else if j.model = "" then .error "Aircraft model cannot be empty."
  else if j.capacity ≤ 0 then .error "Aircraft capacity must be positive."
  else if j.numOfRowSeats ≤ 0 then .error "Number of row seats must be positive."
  else if 26 < j.numOfRowSeats then .error "Number of row seats cannot be greater than 26."
  else if j.capacity % j.numOfRowSeats ≠ 0 then
    .error "Aircraft capacity must be a multiple of the number of seats per row."
  else .ok ⟨j.id, j.model, j.capacity, j.numOfRowSeats, j.capacity / j.numOfRowSeats⟩

/-- Model of `AircraftModel::setCapacity`. -/
def AircraftModel.setCapacity (a : AircraftModel) (capacity : Int) :
    Except String AircraftModel :=
  if capacity ≤ 0 then .error "Aircraft capacity must be positive."
  else if capacity % a.numOfRowSeats ≠ 0 then
    .error "Aircraft capacity must be a multiple of the number of seats per row."
  else .ok { a with capacity := capacity, numOfRows := capacity / a.numOfRowSeats }

/-- Model of `AircraftModel::setNumOfRowSeats`. -/
def AircraftModel.setNumOfRowSeats (a : AircraftModel) (numOfRowSeats : Int) :
    Except String AircraftModel :=
  if numOfRowSeats ≤ 0 then .error "Number of row seats must be positive."
  else if 26 < numOfRowSeats then .error "Number of row seats cannot be greater than 26."
  else if a.capacity % numOfRowSeats ≠ 0 then
    .error "Aircraft capacity must be a multiple of the number of seats per row."
  else .ok { a with numOfRowSeats := numOfRowSeats, numOfRows := a.capacity / numOfRowSeats }

/-- Model of `AircraftModel::setModel` (inline in the header, no validation). -/
def AircraftModel.setModel (a : AircraftModel) (model : String) : AircraftModel :=
  { a with model := model }

/-- The aircraft invariant claimed by the spec. -/
def aircraftInv (a : AircraftModel) : Prop :=
  0 < a.capacity ∧ 1 ≤ a.numOfRowSeats ∧ a.numOfRowSeats ≤ 26 ∧
    a.capacity % a.numOfRowSeats = 0 ∧ a.numOfRows = a.capacity / a.numOfRowSeats

instance (a : AircraftModel) : Decidable (aircraftInv a) := by
  unfold aircraftInv; infer_instance

structure DateTime where
  year : Int
  month : Int
  day : Int
  hour : Int
  minute : Int
deriving DecidableEq, Repr

structure FlightModel where
  flightId : String
  origin : String
  destination : String
  departureTime : DateTime
  arrivalTime : DateTime
  aircraftId : String
  crewMemberIds : List String
  seatMap : List (List Bool)
deriving DecidableEq, Repr

/-- Model of `FlightRepository::findFlightById`. -/
def findFlightById (repo : List FlightModel) (id : String) : Option FlightModel :=
  repo.find? (fun f => f.flightId = id)

/-- Core of `FlightModel::getSeatIndices` once the aircraft geometry is
known: `colIndex = find_first_not_of("0123456789")`; reject when no
non-digit exists, the non-digit is first, or more than one character
follows the digits; then check the column character against
`['A', 'A' + numOfRowSeats - 1]` and `std::stoi` the digit prefix and
check the row against `[1, numOfRows]`. `(-1, -1)` is the invalid
sentinel. -/
def getSeatIndicesCore (numOfRows numOfRowSeats : Int) (s : List Char) : Int × Int :=
  if s = [] then (-1, -1)
  else
    let ds := s.takeWhile isSeatDigit
    let rest := s.dropWhile isSeatDigit
    -- `colIndex == npos` is `rest = []`, `colIndex == 0` is `ds = []`,
    -- `(length - colIndex) != 1` is `rest.length ≠ 1`.
    if rest.length ≠ 1 ∨ ds = [] then (-1, -1)
    else
      let colChar := rest.headD ' '
      if (colChar.toNat : Int) < 65 ∨ 65 + numOfRowSeats - 1 < (colChar.toNat : Int) then
        (-1, -1)
      else
        match stoiChars ds with
        | none => (-1, -1)
        | some rowNum =>
          if rowNum ≤ 0 ∨ numOfRows < rowNum then (-1, -1)
          else (rowNum - 1, (colChar.toNat : Int) - 65)

/-- Model of `FlightModel::getSeatIndices`: resolves the flight's aircraft in the
aircraft repository first; a missing aircraft yields the sentinel. -/
def getSeatIndicesFn (aircrafts : List AircraftModel) (fl : FlightModel) (s : List Char) :
    Int × Int :=
  match findAircraftById aircrafts fl.aircraftId with
  | none => (-1, -1)
  | some ac => getSeatIndicesCore ac.numOfRows ac.numOfRowSeats s

/-- Model of `FlightModel::isValidSeat`. -/
def isValidSeatFn (aircrafts : List AircraftModel) (fl : FlightModel) (s : List Char) : Bool :=
  let idx := getSeatIndicesFn aircrafts fl s
  ¬ (idx.1 = -1) && ¬ (idx.2 = -1)

/-- Read of the private seat grid `seatMap[r][c]` (in-bounds in C++;
out-of-bounds access is undefined behaviour there, `getD` here). -/
def seatCell (fl : FlightModel) (r c : Nat) : Bool :=
  (fl.seatMap.getD r []).getD c false

/-- Model of `FlightModel::getSeatStatus`; `none` models the thrown
`std::invalid_argument` on an invalid seat. -/
def getSeatStatusFn (aircrafts : List AircraftModel) (fl : FlightModel) (s : List Char) :
    Option Bool :=
  let idx := getSeatIndicesFn aircrafts fl s
  if idx.1 = -1 ∨ idx.2 = -1 then none
  else some (seatCell fl idx.1.toNat idx.2.toNat)

/-- Model of `FlightModel::setSeatStatus`; `none` models the thrown
`std::invalid_argument` on an invalid seat. -/
def setSeatStatusFn (aircrafts : List AircraftModel) (fl : FlightModel) (s : List Char)
    (status : Bool) : Option FlightModel :=
  let idx := getSeatIndicesFn aircrafts fl s
  if idx.1 = -1 ∨ idx.2 = -1 then none
  else some { fl with
    seatMap := fl.seatMap.set idx.1.toNat
      ((fl.seatMap.getD idx.1.toNat []).set idx.2.toNat status) }

/-- The claim's description of a well-formed in-range seat code for an
aircraft with `numOfRows` rows and `numOfRowSeats` seats per row: one or
more leading digits parsing to a row in `[1, numOfRows]` followed by
exactly one letter in `['A', 'A' + numOfRowSeats - 1]`
(codes 65 = 'A'). -/
def seatWellFormed (numOfRows numOfRowSeats : Int) (s : List Char) : Prop :=
  ∃ ds c, s = ds ++ [c] ∧ ds ≠ [] ∧ (∀ d ∈ ds, isSeatDigit d = true) ∧
    1 ≤ (parseRow ds : Int) ∧ (parseRow ds : Int) ≤ numOfRows ∧
    65 ≤ c.toNat ∧ (c.toNat : Int) ≤ 65 + numOfRowSeats - 1

/-- Concrete aircraft used in witnesses: 120 seats, 6 per row, 20 rows. -/
def acW : AircraftModel := ⟨"AC-001", "Boeing 737", 120, 6, 20⟩

/-- Concrete flight on `acW` used in witnesses (3 of its 20 rows shown in
the grid are irrelevant to decoding, which consults the aircraft). -/
def flW : FlightModel :=
  ⟨"FL-001", "CAI", "LHR", ⟨2025, 1, 1, 10, 0⟩, ⟨2025, 1, 1, 14, 30⟩,
    "AC-001", [], List.replicate 20 (List.replicate 6 false)⟩

/-- Model of `std::min` on the idealised floats (kept as an explicit conditional so
that the kernel can evaluate it on concrete rationals). -/
def fmin (a b : Rat) : Rat := if a ≤ b then a else b

/-- Model of `ReservationService::getSeatPrice`. Float arithmetic is idealised over
`Rat` (`0.3f` as `3/10`). The row is `std::stoi(seatNumber.substr(0,
size-1))` — uncaught when it throws, modelled as `none` — and the column
is `seatNumber.back()`; codes: 'A' = 65, 'C' = 67, 'D' = 68, 'F' = 70. -/
def getSeatPriceFn (seat : List Char) (loyaltyPoints : Rat) : Option Rat :=
  if seat = [] then
    let basePrice : Rat := 100
    some (basePrice - fmin loyaltyPoints (basePrice * (3 / 10)))
  else
    match stoiChars seat.dropLast with
    | none => none
    | some row =>
      let col := (seat.getLastD ' ').toNat
      let base1 : Rat :=
        if 1 ≤ row ∧ row ≤ 5 then 200
        else if 6 ≤ row ∧ row ≤ 15 then 150
        else 100
      let base2 : Rat :=
        if col = 65 ∨ col = 70 then base1 + 20
        else if col = 67 ∨ col = 68 then base1 + 10
        else base1
      some (base2 - fmin loyaltyPoints (base2 * (3 / 10)))

/-- The price formula asserted by claim C4, written from the claim's words
for comparison with the implementation: the window premium goes to 'A' or
the aircraft's last-letter column `'A' + numOfRowSeats - 1`. -/
def seatPriceClaimed (numOfRowSeats row : Int) (col : Char) (lp : Rat) : Rat :=
  let base : Rat :=
    if 1 ≤ row ∧ row ≤ 5 then 200 else if 6 ≤ row ∧ row ≤ 15 then 150 else 100
  let premium : Rat :=
    if col.toNat = 65 ∨ (col.toNat : Int) = 65 + numOfRowSeats - 1 then 20
    else if col.toNat = 67 ∨ col.toNat = 68 then 10
    else 0
  (base + premium) - fmin lp ((base + premium) * (3 / 10))

/-- Base plus column premium as the implementation computes it: the window
premium goes to the fixed letters 'A' and 'F', independent of the
aircraft. -/
def seatBasePremium (row : Int) (col : Char) : Rat :=
  let base : Rat :=
    if 1 ≤ row ∧ row ≤ 5 then 200 else if 6 ≤ row ∧ row ≤ 15 then 150 else 100
  let premium : Rat :=
    if col.toNat = 65 ∨ col.toNat = 70 then 20
    else if col.toNat = 67 ∨ col.toNat = 68 then 10
    else 0
  base + premium

/-- A 4-seats-per-row aircraft (12 seats, 3 rows), as can be present in
the repository; its last letter column is 'D'. -/
def ac4 : AircraftModel := ⟨"AC-004", "ERJ-140", 12, 4, 3⟩

/-- The character `std::to_string` emits for one decimal digit. -/
def digitChar (k : Nat) : Char :=
  match k with
  | 0 => '0' | 1 => '1' | 2 => '2' | 3 => '3' | 4 => '4'
  | 5 => '5' | 6 => '6' | 7 => '7' | 8 => '8' | _ => '9'

/-- Decimal digits of a natural number, most significant first
(`std::to_string` on a non-negative value). -/
def natDigits (n : Nat) : List Char :=
  if h : n < 10 then [digitChar n]
  else natDigits (n / 10) ++ [digitChar (n % 10)]
decreasing_by exact Nat.div_lt_self (by omega) (by omega)

/-- Model of `std::to_string` on an `int`. -/
def intToChars (i : Int) : List Char :=
  if i < 0 then '-' :: natDigits (-i).toNat else natDigits i.toNat

/-- Zero padding used by `DateTime::toString` for the two-digit fields:
`(x < 10 ? "0" : "") + std::to_string(x)`. -/
def pad2 (i : Int) : List Char := (if i < 10 then ['0'] else []) ++ intToChars i

/-- Model of `find(sep)` followed by the two `substr` calls: the part before the
first separator and the part after it; `none` when the separator is
absent. -/
def splitFirst (sep : Char) : List Char → Option (List Char × List Char)
  | [] => none
  | c :: t =>
    if c = sep then some ([], t)
    else
      match splitFirst sep t with
      | none => none
      | some (a, b) => some (c :: a, b)

inductive UserType
  | Passenger
  | BookingManager
  | Admin
deriving DecidableEq, Repr

/-- A repository user: `UserModel` plus the `Passenger` subclass's
`loyaltyPoints` (meaningful only for role `Passenger`; the service's
`dynamic_pointer_cast<Passenger>` succeeds exactly for objects
constructed as passengers, whose role is `Passenger` by construction). -/
structure UserRec where
  userId : String
  username : String
  password : String
  role : UserType
  loyaltyPoints : Rat
deriving DecidableEq, Repr

/-- Model of `UserRepository::findUserById`. -/
def findUserById (users : List UserRec) (id : String) : Option UserRec :=
  users.find? (fun u => u.userId = id)

/-- Model of `Passenger::setLoyaltyPoints` applied through the repository's shared
pointer. -/
def updateUserLoyalty (users : List UserRec) (uid : String) (lp : Rat) : List UserRec :=
  users.map (fun u => if u.userId = uid then { u with loyaltyPoints := lp } else u)

/-- Mutation of a flight held by `FlightRepository` through its shared
pointer. -/
def updateFlightById (fls : List FlightModel) (fid : String) (newFl : FlightModel) :
    List FlightModel :=
  fls.map (fun g => if g.flightId = fid then newFl else g)

inductive ReservationStatus
  | CONFIRMED
  | CANCELLED
deriving DecidableEq, Repr

structure ReservationModel where
  reservationId : String
  flightId : String
  passengerId : String
  seatNumber : String
  status : ReservationStatus
  paymentId : String
deriving DecidableEq, Repr

/-- Model of `ReservationRepository::findReservationById`. -/
def findReservationById (rs : List ReservationModel) (id : String) :
    Option ReservationModel :=
  rs.find? (fun r => r.reservationId = id)

/-- The three payment strategies; construction-time validation lives in
`createPaymentStrategy` below. -/
inductive PaymentStrategy
  | paypal (email : String)
  | credit (cardNumber expirationDate cvv : String)
  | cash
deriving DecidableEq, Repr

inductive PaymentStatus
  | COMPLETED
  | PENDING
  | REFUNDED
deriving DecidableEq, Repr

/-- Model of `PaymentModel`. The `paymentDate` field (`DateTime::now()`, wall
clock) is not modelled; no claim observes it. -/
structure PaymentModel where
  paymentId : String
  passengerId : String
  amount : Rat
  strategy : PaymentStrategy
  status : PaymentStatus
deriving DecidableEq, Repr

/-- Model of `PaymentRepository::findPaymentById`. -/
def findPaymentById (ps : List PaymentModel) (id : String) : Option PaymentModel :=
  ps.find? (fun p => p.paymentId = id)

/-- The `paymentDetails` JSON object as the strategy factory reads it:
presence and value of the fields it may query. -/
structure PaymentDetails where
  email : Option String
  cardNumber : Option String
  expirationDate : Option String
  cvv : Option String
deriving DecidableEq, Repr

/-- Model of `PaypalPayment::PaypalPayment`: non-empty, has '@', and everything
after the first '@' is exactly "paypal.com"; `none` models the throw. -/
def mkPaypalPayment (email : String) : Option PaymentStrategy :=
  if email.data = [] then none
  else
    match splitFirst '@' email.data with
    | none => none
    | some (_, domain) =>
      if domain = "paypal.com".data then some (.paypal email) else none

/-- Model of `CreditPayment::CreditPayment`: 16 digits, `MM/YY`-shaped expiry of
digits and '/', 3-digit CVV; `none` models the throw. -/
def mkCreditPayment (number expiry cvv_code : String) : Option PaymentStrategy :=
  if number.data = [] ∨ expiry.data = [] ∨ cvv_code.data = [] then none
  else if ¬ (number.data.length = 16) then none
  else if ¬ (expiry.data.length = 5 ∧ expiry.data.getD 2 ' ' = '/') then none
  else if ¬ (cvv_code.data.length = 3) then none
  else if ¬ (cvv_code.data.all isSeatDigit) then none
  else if ¬ (expiry.data.all fun c => isSeatDigit c || c = '/') then none
  else if ¬ (number.data.all isSeatDigit) then none
  else some (.credit number expiry cvv_code)

/-- Model of `PaymentStrategyFactory::createPaymentStrategy`; `none` models every
thrown `std::invalid_argument` (unknown type, missing or empty fields,
and the strategy constructors' own validation). -/
def createPaymentStrategy (type : String) (d : PaymentDetails) : Option PaymentStrategy :=
  if type = "paypal" then
    match d.email with
    | none => none
    | some e => if e.data = [] then none else mkPaypalPayment e
  else if type = "credit" then
    match d.cardNumber, d.expirationDate, d.cvv with
    | some cn, some ed, some cv =>
      if cn.data = [] ∨ ed.data = [] ∨ cv.data = [] then none
      else mkCreditPayment cn ed cv
    | _, _, _ => none
  else if type = "cash" then some .cash
  else none

/-- The in-memory repositories as one state. -/
structure SysState where
  users : List UserRec
  aircrafts : List AircraftModel
  flights : List FlightModel
  reservations : List ReservationModel
  payments : List PaymentModel
deriving DecidableEq, Repr

/-- Model of `PaymentService::createPayment`: build the strategy (exceptions
caught → `nullopt`), run the `PaymentModel` constructor checks
(exceptions caught), add to the repository (duplicate id → `false` →
`nullopt`, no insertion) and return the stored payment. `pid` is the
fresh "PAY-" id drawn by the constructor's retry loop. -/
def createPaymentFn (s : SysState) (passengerId : String) (amount : Rat)
    (method : String) (details : PaymentDetails) (pid : String) :
    Option PaymentModel × SysState :=
  match createPaymentStrategy method details with
  | none => (none, s)
  | some strat =>
    if passengerId = "" ∨ amount ≤ 0 then (none, s)
    else if (findUserById s.users passengerId).isNone then (none, s)
    else
      let pay : PaymentModel := ⟨pid, passengerId, amount, strat, .PENDING⟩
      if (findPaymentById s.payments pid).isSome then (none, s)
      else (some pay, { s with payments := pay :: s.payments })

/-- Model of `ReservationModelBuilder::build` (missing-field check, status
defaulting to CONFIRMED) followed by the `ReservationModel` constructor's
referential checks; `rid` is the fresh "RES-" id from the retry loop. -/
def buildReservation (s : SysState)
    (rid flightId passengerId seatNumber paymentId : String) :
    Except String ReservationModel :=
  if flightId = "" ∨ passengerId = "" ∨ seatNumber = "" ∨ paymentId = "" then
    .error "Missing required reservation parameters."
  else if (findUserById s.users passengerId).isNone then
    .error "Passenger ID does not exist."
  else if (findFlightById s.flights flightId).isNone then
    .error "Flight ID does not exist."
  else if (findPaymentById s.payments paymentId).isNone then
    .error ("Payment ID " ++ paymentId ++ " does not exist.")
  else .ok ⟨rid, flightId, passengerId, seatNumber, .CONFIRMED, paymentId⟩

/-- Model of `ReservationService::addReservation`. `.ok none` is `std::nullopt`;
`.error` is an exception escaping the function (it catches nothing):
`getSeatStatus`/`setSeatStatus` on an invalid seat, `std::stoi` inside
`getSeatPrice`, or the builder/constructor throws. The loyalty-point
adjustment (`0.1f` idealised as `1/10`, accrual capped at 100) is
computed before payment creation but written to the passenger only after
the repository add succeeds. -/
def addReservation (s : SysState)
    (flightId seatNumber passengerId paymentMethod : String)
    (paymentDetails : PaymentDetails) (pid rid : String) :
    Except String (Option ReservationModel × SysState) :=
  match findUserById s.users passengerId with
  | none => .ok (none, s)
  | some u =>
    if ¬ (u.role = UserType.Passenger) then .ok (none, s)
    else
      let loyaltyPoints := u.loyaltyPoints
      match findFlightById s.flights flightId with
      | none => .ok (none, s)
      | some fl =>
        match getSeatStatusFn s.aircrafts fl seatNumber.data with
        | none => .error ("Invalid seat number: " ++ seatNumber)
        | some true => .ok (none, s)
        | some false =>
          match getSeatPriceFn seatNumber.data loyaltyPoints with
          | none => .error "stoi: no conversion"
          | some seatPrice =>
            let newPoints : Rat :=
              if 0 < loyaltyPoints then
                loyaltyPoints - fmin loyaltyPoints (seatPrice * (1 / 10))
              else
                let accrued := loyaltyPoints + seatPrice * (1 / 10)
                if 100 < accrued then 100 else accrued
            match createPaymentFn s passengerId seatPrice paymentMethod paymentDetails pid with
            | (none, s1) => .ok (none, s1)
            | (some pay, s1) =>
              match buildReservation s1 rid flightId passengerId seatNumber pay.paymentId with
              | .error e => .error e
              | .ok res =>
                if (findReservationById s1.reservations res.reservationId).isSome then
                  .ok (none, s1)
                else
                  let s2 := { s1 with reservations := res :: s1.reservations }
                  match setSeatStatusFn s2.aircrafts fl seatNumber.data true with
                  | none => .error ("Invalid seat number: " ++ seatNumber)
                  | some fl2 =>
                    let s3 := { s2 with flights := updateFlightById s2.flights fl.flightId fl2 }
                    let s4 := { s3 with users := updateUserLoyalty s3.users passengerId newPoints }
                    .ok (findReservationById s4.reservations res.reservationId, s4)

/-- Model of `ReservationRepository::deleteReservation`. -/
def repoDeleteReservation (repo : List ReservationModel) (rid : String) :
    Bool × List ReservationModel :=
  match repo.find? (fun r => r.reservationId = rid) with
  | none => (false, repo)
  | some _ => (true, repo.filter (fun r => ¬ (r.reservationId = rid)))

/-- Model of `ReservationService::deleteReservation`: find the reservation, unbook
its seat if its flight still exists (`setSeatStatus` may throw — not
caught), then delete from the repository. -/
def deleteReservation (s : SysState) (rid : String) : Except String (Bool × SysState) :=
  match findReservationById s.reservations rid with
  | none => .ok (false, s)
  | some res =>
    match findFlightById s.flights res.flightId with
    | none =>
      let del := repoDeleteReservation s.reservations rid
      .ok (del.1, { s with reservations := del.2 })
    | some fl =>
      match setSeatStatusFn s.aircrafts fl res.seatNumber.data false with
      | none => .error ("Invalid seat number: " ++ res.seatNumber)
      | some fl2 =>
        let s1 := { s with flights := updateFlightById s.flights fl.flightId fl2 }
        let del := repoDeleteReservation s1.reservations rid
        .ok (del.1, { s1 with reservations := del.2 })

/-- The serialised form read by `ReservationModel::ReservationModel(const
JSON&)`. -/
structure ReservationJSON where
  id : String
  flightId : String
  passengerId : String
  seatNumber : String
  status : String
  paymentId : String
deriving DecidableEq, Repr

def parseReservationStatus (s : String) : Option ReservationStatus :=
  if s = "CONFIRMED" then some .CONFIRMED
  else if s = "CANCELLED" then some .CANCELLED
  else none

/-- Model of `ReservationModel::ReservationModel(const JSON&)`. The constructor
mutates the referenced flight through the repository's shared pointer
(`setSeatStatus`) before the payment check, so the (possibly mutated)
state is returned alongside the result on every path. -/
def reservationFromJson (s : SysState) (j : ReservationJSON) :
    Except String ReservationModel × SysState :=
  if ¬ (j.id.data.take 4 = ['R', 'E', 'S', '-']) then
    (.error "Invalid ID for ReservationModel", s)
  else
    match findFlightById s.flights j.flightId with
    | none => (.error "Flight ID does not exist.", s)
    | some _ =>
      match findUserById s.users j.passengerId with
      | none => (.error "Passenger ID does not exist.", s)
      | some _ =>
        match parseReservationStatus j.status with
        | none => (.error "Invalid reservation status provided.", s)
        | some st =>
          match findFlightById s.flights j.flightId with
          | none => (.error "Flight ID does not exist (flight may have been deleted).", s)
          | some fl =>
            match setSeatStatusFn s.aircrafts fl j.seatNumber.data
                (decide (st = ReservationStatus.CONFIRMED)) with
            | none => (.error ("Invalid seat number: " ++ j.seatNumber), s)
            | some fl2 =>
              let s1 := { s with flights := updateFlightById s.flights fl.flightId fl2 }
              match findPaymentById s1.payments j.paymentId with
              | none => (.error "Payment ID does not exist.", s1)
              | some _ =>
                (.ok ⟨j.id, j.flightId, j.passengerId, j.seatNumber, st, j.paymentId⟩, s1)

/-- The flight's stored grid has exactly the dimensions of its aircraft:
established at construction, and the in-bounds precondition of the
unchecked C++ grid indexing. -/
def flightDimsOK (aircrafts : List AircraftModel) (fl : FlightModel) : Bool :=
  match findAircraftById aircrafts fl.aircraftId with
  | none => false
  | some ac =>
    decide (fl.seatMap.length = ac.numOfRows.toNat) &&
      fl.seatMap.all (fun row => decide (row.length = ac.numOfRowSeats.toNat))

/-- A passenger, a details object, and the concrete base state used by the
booking witnesses. -/
def pasW : UserRec := ⟨"PAS-1", "alice", "pw", UserType.Passenger, 0⟩

def pdW : PaymentDetails := ⟨none, none, none, none⟩

def s0W : SysState := ⟨[pasW], [acW], [flW], [], []⟩

/-- The concrete reservation, payment, mutated flight and final state
produced by booking seat "12A" on `flW` from `s0W`. -/
def resW : ReservationModel := ⟨"RES-1", "FL-001", "PAS-1", "12A", .CONFIRMED, "PAY-1"⟩

def payW : PaymentModel := ⟨"PAY-1", "PAS-1", 170, .cash, .PENDING⟩

def flW2 : FlightModel :=
  ⟨"FL-001", "CAI", "LHR", ⟨2025, 1, 1, 10, 0⟩, ⟨2025, 1, 1, 14, 30⟩, "AC-001", [],
    (List.replicate 20 (List.replicate 6 false)).set 11
      ((List.replicate 6 false).set 0 true)⟩

def s1W : SysState :=
  ⟨[⟨"PAS-1", "alice", "pw", UserType.Passenger, 17⟩], [acW], [flW2], [resW], [payW]⟩

/-- The reservation and state for the C5 counterexample: the flight still
exists but its aircraft was deleted from the aircraft repository, so the
reservation's seat no longer decodes. -/
def resOrph : ReservationModel :=
  ⟨"RES-9", "FL-001", "PAS-1", "1A", .CONFIRMED, "PAY-9"⟩

def sC5 : SysState := ⟨[], [], [flW], [resOrph], []⟩

/-- The payment, JSON object and states for the C10 witness: loading a
CONFIRMED reservation for seat "3B" marks cell (2, 1) of the flight. -/
def payC10 : PaymentModel := ⟨"PAY-7", "PAS-1", 50, .cash, .PENDING⟩

def jC10 : ReservationJSON := ⟨"RES-7", "FL-001", "PAS-1", "3B", "CONFIRMED", "PAY-7"⟩

def sC10 : SysState := ⟨[pasW], [acW], [flW], [], [payC10]⟩

def flC10 : FlightModel :=
  ⟨"FL-001", "CAI", "LHR", ⟨2025, 1, 1, 10, 0⟩, ⟨2025, 1, 1, 14, 30⟩, "AC-001", [],
    (List.replicate 20 (List.replicate 6 false)).set 2
      ((List.replicate 6 false).set 1 true)⟩

def resC10 : ReservationModel :=
  ⟨"RES-7", "FL-001", "PAS-1", "3B", .CONFIRMED, "PAY-7"⟩

/-! ## Properties -/

lemma isSeatDigit_iff {c : Char} : isSeatDigit c = true ↔ 48 ≤ c.toNat ∧ c.toNat ≤ 57 := by
  simp [isSeatDigit]

lemma isCppSpace_of_digit {c : Char} (h : isSeatDigit c = true) : isCppSpace c = false := by
  rw [isSeatDigit_iff] at h
  simp only [isCppSpace, Bool.or_eq_false_iff, decide_eq_false_iff_not]
  omega

lemma not_digit_of_letter {c : Char} (h : 65 ≤ c.toNat) : isSeatDigit c = false := by
  simp only [isSeatDigit, Bool.and_eq_false_iff, decide_eq_false_iff_not]
  omega

lemma takeWhile_digits_concat (ds : List Char) (c : Char) (rest : List Char)
    (hds : ∀ d ∈ ds, isSeatDigit d = true) (hc : isSeatDigit c = false) :
    (ds ++ c :: rest).takeWhile isSeatDigit = ds ∧
      (ds ++ c :: rest).dropWhile isSeatDigit = c :: rest := by
  induction ds with
  | nil => simp [List.takeWhile_cons, List.dropWhile_cons, hc]
  | cons d t ih =>
    have hd : isSeatDigit d = true := hds d (by simp)
    have iht := ih (fun x hx => hds x (by simp [hx]))
    simp [List.takeWhile_cons, List.dropWhile_cons, hd, iht.1, iht.2]

lemma dropWhile_head_false {p : Char → Bool} {l t : List Char} {c : Char}
    (h : l.dropWhile p = c :: t) : p c = false := by
  induction l with
  | nil => simp at h
  | cons a l ih =>
    rw [List.dropWhile_cons] at h
    by_cases hp : p a = true
    · rw [if_pos hp] at h; exact ih h
    · rw [if_neg hp] at h
      obtain ⟨rfl, -⟩ := List.cons.inj h
      simpa using hp

lemma stoiChars_all_digits (ds : List Char) (hne : ds ≠ [])
    (hds : ∀ d ∈ ds, isSeatDigit d = true) :
    stoiChars ds =
      if (2147483647 : Int) < (parseRow ds : Int) then none
      else some ((parseRow ds : Int)) := by
  match ds, hne with
  | d :: t, _ =>
    have hd := hds d (by simp)
    have hsp : isCppSpace d = false := isCppSpace_of_digit hd
    have h45 : ¬ (d.toNat = 45) := by rw [isSeatDigit_iff] at hd; omega
    have h43 : ¬ (d.toNat = 43) := by rw [isSeatDigit_iff] at hd; omega
    have htw : (d :: t).takeWhile isSeatDigit = d :: t :=
      List.takeWhile_eq_self_iff.mpr hds
    simp [stoiChars, List.dropWhile_cons, hsp, h45, h43, stoiAfterSign, htw]

/-- A well-formed code decodes to `(row - 1, letter - 'A')`. -/
lemma getSeatIndicesCore_of_wf {nr n : Int} (hnr : nr ≤ 2147483647)
    {ds : List Char} {c : Char} (hne : ds ≠ [])
    (hds : ∀ d ∈ ds, isSeatDigit d = true)
    (h1 : 1 ≤ (parseRow ds : Int)) (h2 : (parseRow ds : Int) ≤ nr)
    (hc1 : 65 ≤ c.toNat) (hc2 : (c.toNat : Int) ≤ 65 + n - 1) :
    getSeatIndicesCore nr n (ds ++ [c]) =
      ((parseRow ds : Int) - 1, (c.toNat : Int) - 65) := by
  have hcd : isSeatDigit c = false := not_digit_of_letter hc1
  obtain ⟨htw, hdw⟩ := takeWhile_digits_concat ds c [] hds hcd
  have hstoi := stoiChars_all_digits ds hne hds
  rw [if_neg (by omega)] at hstoi
  unfold getSeatIndicesCore
  rw [if_neg (by simp)]
  simp only [htw, hdw]
  rw [if_neg (by simpa using hne)]
  simp only [List.headD_cons]
  rw [if_neg (by omega), hstoi]
  dsimp only
  rw [if_neg (by omega)]

/-- Every string that is not a well-formed in-range code yields the
invalid sentinel. -/
lemma getSeatIndicesCore_of_not_wf {nr n : Int} {s : List Char}
    (hwf : ¬ seatWellFormed nr n s) :
    getSeatIndicesCore nr n s = (-1, -1) := by
  by_cases hs : s = []
  · subst hs; rfl
  unfold getSeatIndicesCore
  rw [if_neg hs]
  simp only []
  by_cases hlen : (s.dropWhile isSeatDigit).length ≠ 1 ∨ s.takeWhile isSeatDigit = []
  · rw [if_pos hlen]
  push_neg at hlen
  obtain ⟨hlen1, hdne⟩ := hlen
  rw [if_neg (by push_neg; exact ⟨hlen1, hdne⟩)]
  obtain ⟨c, hc⟩ : ∃ c, s.dropWhile isSeatDigit = [c] := by
    match h : s.dropWhile isSeatDigit, hlen1 with
    | [c], _ => exact ⟨c, rfl⟩
    | [], h1 => simp at h1
    | a :: b :: t, h1 => simp at h1
  have hsplit : s = s.takeWhile isSeatDigit ++ [c] := by
    conv_lhs => rw [← List.takeWhile_append_dropWhile isSeatDigit s]
    rw [hc]
  have hdigits : ∀ d ∈ s.takeWhile isSeatDigit, isSeatDigit d = true :=
    fun d hd => List.mem_takeWhile_imp hd
  have hcd : isSeatDigit c = false := dropWhile_head_false hc
  rw [hc]
  simp only [List.headD_cons]
  by_cases hcol : (c.toNat : Int) < 65 ∨ 65 + n - 1 < (c.toNat : Int)
  · rw [if_pos hcol]
  rw [if_neg hcol]
  push_neg at hcol
  have hstoi := stoiChars_all_digits _ hdne hdigits
  by_cases hbig : 2147483647 < (parseRow (s.takeWhile isSeatDigit) : Int)
  · rw [if_pos hbig] at hstoi
    rw [hstoi]
  rw [if_neg hbig] at hstoi
  rw [hstoi]
  simp only []
  by_cases hrow : (parseRow (s.takeWhile isSeatDigit) : Int) ≤ 0 ∨
      nr < (parseRow (s.takeWhile isSeatDigit) : Int)
  · rw [if_pos hrow]
  exfalso
  push_neg at hrow
  exact hwf ⟨s.takeWhile isSeatDigit, c, hsplit, hdne, hdigits,
    by omega, hrow.2, by omega, hcol.2⟩

/-- Claim C1. Seat-code decoding (`FlightModel::getSeatIndices`) succeeds
exactly on well-formed in-range codes: for an aircraft present in the
repository, a string decodes to `(row - 1, letter - 'A')` if and only if
it consists of one or more leading digits parsing to a row in
`[1, numOfRows]` followed by exactly one letter in
`['A', 'A' + numOfRowSeats - 1]`; every other string yields the sentinel
`(-1, -1)`, and `isValidSeat` is true exactly on the well-formed codes.
(`numOfRows ≤ 2147483647` reflects the C++ `int` range of the field.) -/
theorem seat_decoding_iff_wellFormed
    (aircrafts : List AircraftModel) (fl : FlightModel) (ac : AircraftModel)
    (hfind : findAircraftById aircrafts fl.aircraftId = some ac)
    (hn1 : 1 ≤ ac.numOfRowSeats) (hn2 : ac.numOfRowSeats ≤ 26)
    (hr : ac.numOfRows ≤ 2147483647) :
    (∀ s, isValidSeatFn aircrafts fl s = true ↔
      seatWellFormed ac.numOfRows ac.numOfRowSeats s) ∧
    (∀ ds c, ds ≠ [] → (∀ d ∈ ds, isSeatDigit d = true) →
      1 ≤ (parseRow ds : Int) → (parseRow ds : Int) ≤ ac.numOfRows →
      65 ≤ c.toNat → (c.toNat : Int) ≤ 65 + ac.numOfRowSeats - 1 →
      getSeatIndicesFn aircrafts fl (ds ++ [c]) =
        ((parseRow ds : Int) - 1, (c.toNat : Int) - 65)) ∧
    (∀ s, ¬ seatWellFormed ac.numOfRows ac.numOfRowSeats s →
      getSeatIndicesFn aircrafts fl s = (-1, -1)) := by
  have hidx : ∀ s, getSeatIndicesFn aircrafts fl s =
      getSeatIndicesCore ac.numOfRows ac.numOfRowSeats s := by
    intro s; unfold getSeatIndicesFn; rw [hfind]
  refine ⟨?_, ?_, ?_⟩
  · intro s
    constructor
    · intro hvalid
      by_contra hwf
      have := getSeatIndicesCore_of_not_wf hwf
      unfold isValidSeatFn at hvalid
      rw [hidx s, this] at hvalid
      simp at hvalid
    · rintro ⟨ds, c, rfl, hne, hds, h1, h2, hc1, hc2⟩
      unfold isValidSeatFn
      rw [hidx _, getSeatIndicesCore_of_wf hr hne hds h1 h2 hc1 hc2]
      simp only [Bool.and_eq_true, decide_eq_true_eq]
      exact ⟨by omega, by omega⟩
  · intro ds c hne hds h1 h2 hc1 hc2
    rw [hidx _]
    exact getSeatIndicesCore_of_wf hr hne hds h1 h2 hc1 hc2
  · intro s hwf
    rw [hidx s]
    exact getSeatIndicesCore_of_not_wf hwf

/-- Witness for C1: on the concrete repository `[acW]`, the code "12A"
decodes to `(11, 0)` via the theorem. -/
theorem seat_decoding_iff_wellFormed_witness :
    getSeatIndicesFn [acW] flW (['1', '2'] ++ ['A']) =
      ((parseRow ['1', '2'] : Int) - 1, (('A').toNat : Int) - 65) :=
  (seat_decoding_iff_wellFormed [acW] flW acW (by decide) (by decide) (by decide)
      (by decide)).2.1 ['1', '2'] 'A' (by decide) (by decide) (by decide)
      (by decide) (by decide) (by decide)

/-- Claim C9. For a flight whose `aircraftId` has no matching aircraft in the
repository, every seat string decodes to the invalid sentinel,
`isValidSeat` is false on all inputs, and `getSeatStatus`/`setSeatStatus`
throw (`none`) on all inputs. -/
theorem missing_aircraft_invalidates_all_seats
    (aircrafts : List AircraftModel) (fl : FlightModel)
    (h : findAircraftById aircrafts fl.aircraftId = none) :
    ∀ s b, getSeatIndicesFn aircrafts fl s = (-1, -1) ∧
      isValidSeatFn aircrafts fl s = false ∧
      getSeatStatusFn aircrafts fl s = none ∧
      setSeatStatusFn aircrafts fl s b = none := by
  intro s b
  have hidx : getSeatIndicesFn aircrafts fl s = (-1, -1) := by
    unfold getSeatIndicesFn; rw [h]
  refine ⟨hidx, ?_, ?_, ?_⟩
  · unfold isValidSeatFn; rw [hidx]; rfl
  · unfold getSeatStatusFn; rw [hidx]; rfl
  · unfold setSeatStatusFn; rw [hidx]; rfl

/-- Witness for C9: the empty aircraft repository invalidates the
previously valid seat "12A" of `flW`. -/
theorem missing_aircraft_invalidates_all_seats_witness :
    getSeatIndicesFn [] flW ['1', '2', 'A'] = (-1, -1) ∧
      isValidSeatFn [] flW ['1', '2', 'A'] = false ∧
      getSeatStatusFn [] flW ['1', '2', 'A'] = none ∧
      setSeatStatusFn [] flW ['1', '2', 'A'] true = none :=
  missing_aircraft_invalidates_all_seats [] flW rfl ['1', '2', 'A'] true

lemma fmin_le_right (a b : Rat) : fmin a b ≤ b := by
  unfold fmin
  split_ifs with h
  · exact h
  · exact le_refl b

/-- Claim C4, counterexample. For the repository aircraft `ac4` with 4 seats
per row, the claim prices seat "1D" as a window seat (220) while the code
prices it as an aisle seat (210): the window premium is hardcoded to
'A'/'F', not to the aircraft's last-letter column. -/
theorem getSeatPrice_claimed_formula_false :
    findAircraftById [ac4] "AC-004" = some ac4 ∧
    getSeatPriceFn ['1', 'D'] 0 = some 210 ∧
    seatPriceClaimed ac4.numOfRowSeats 1 'D' 0 = 220 ∧
    getSeatPriceFn ['1', 'D'] 0 ≠ some (seatPriceClaimed ac4.numOfRowSeats 1 'D' 0) := by
  have h1 : getSeatPriceFn ['1', 'D'] 0 = some 210 := by
    have hst : stoiChars (['1', 'D'].dropLast) = some 1 := by decide
    unfold getSeatPriceFn
    rw [if_neg (by decide), hst]
    dsimp only
    rw [if_neg (by decide), if_pos (by decide), if_pos (by decide)]
    norm_num [fmin]
  have h2 : seatPriceClaimed ac4.numOfRowSeats 1 'D' 0 = 220 := by
    show seatPriceClaimed 4 1 'D' 0 = 220
    unfold seatPriceClaimed
    rw [if_pos (by decide), if_pos (by decide)]
    norm_num [fmin]
  refine ⟨rfl, h1, h2, ?_⟩
  rw [h1, h2]
  intro h
  have := Option.some.inj h
  norm_num at this

/-- Claim C4, amended. For every seat string of the form digits ++ one final
character whose parsed row fits in `int` and every `loyaltyPoints ≥ 0`,
`getSeatPrice` returns `(base + premium) - min(loyaltyPoints,
0.3 * (base + premium))` where base is 200 for rows 1-5, 150 for rows
6-15 and 100 otherwise, and the premium is +20 for the fixed letters
'A'/'F' (window), +10 for 'C'/'D' (aisle) and +0 otherwise — independent
of the aircraft's seats-per-row; in particular the discount never exceeds
30% of base + premium. -/
theorem getSeatPrice_formula (ds : List Char) (c : Char) (lp : Rat)
    (hne : ds ≠ []) (hds : ∀ d ∈ ds, isSeatDigit d = true)
    (hrow : (parseRow ds : Int) ≤ 2147483647) (hlp : 0 ≤ lp) :
    getSeatPriceFn (ds ++ [c]) lp =
      some (seatBasePremium (parseRow ds) c -
        fmin lp (seatBasePremium (parseRow ds) c * (3 / 10))) ∧
    fmin lp (seatBasePremium (parseRow ds) c * (3 / 10)) ≤
      seatBasePremium (parseRow ds) c * (3 / 10) := by
  refine ⟨?_, fmin_le_right _ _⟩
  have hstoi := stoiChars_all_digits ds hne hds
  rw [if_neg (by omega)] at hstoi
  unfold getSeatPriceFn
  rw [if_neg (by simp), List.dropLast_concat, hstoi]
  dsimp only
  rw [List.getLastD_concat]
  unfold seatBasePremium
  split_ifs <;> simp

/-- Witness for the amended C4: seat "3A" with 10 loyalty points. -/
theorem getSeatPrice_formula_witness :
    getSeatPriceFn (['3'] ++ ['A']) 10 =
      some (seatBasePremium (parseRow ['3']) 'A' -
        fmin 10 (seatBasePremium (parseRow ['3']) 'A' * (3 / 10))) ∧
    fmin 10 (seatBasePremium (parseRow ['3']) 'A' * (3 / 10)) ≤
      seatBasePremium (parseRow ['3']) 'A' * (3 / 10) :=
  getSeatPrice_formula ['3'] 'A' 10 (by decide) (by decide) (by decide) (by decide)

/-- Claim C6, counterexample. `getSeatPrice` does fail: on the non-empty
invalid seat string "ZZ" the row part "Z" makes `std::stoi` throw and the
exception propagates, rather than the claimed default price 100. -/
theorem getSeatPrice_throws_on_ZZ : getSeatPriceFn ['Z', 'Z'] 0 = none := by decide

/-- Claim C6, amended. `getSeatPrice` returns the default base price 100
minus the loyalty discount only for the empty seat string; for a
non-empty seat string it returns normally if and only if `std::stoi`
accepts the string minus its last character (otherwise the exception
escapes). -/
theorem getSeatPrice_empty_default (lp : Rat) :
    getSeatPriceFn [] lp = some (100 - fmin lp 30) ∧
    (∀ s : List Char, s ≠ [] →
      (getSeatPriceFn s lp = none ↔ stoiChars s.dropLast = none)) := by
  constructor
  · unfold getSeatPriceFn
    norm_num
  · intro s hs
    unfold getSeatPriceFn
    rw [if_neg hs]
    cases stoiChars s.dropLast <;> simp

/-- Witness for the amended C6 at `lp = 5` and the string "ZZ". -/
theorem getSeatPrice_empty_default_witness :
    getSeatPriceFn [] 5 = some (100 - fmin 5 30) ∧
    (getSeatPriceFn ['Z', 'Z'] 5 = none ↔ stoiChars ['Z'] = none) :=
  ⟨(getSeatPrice_empty_default 5).1,
    by
      have h := (getSeatPrice_empty_default 5).2 ['Z', 'Z'] (by decide)
      simpa using h⟩

/-- Claim C7. Every successfully constructed `AircraftModel` — from
arguments, from JSON, or after a setter — satisfies the invariant
`capacity > 0`, `1 ≤ numOfRowSeats ≤ 26`, `capacity % numOfRowSeats = 0`,
`numOfRows = capacity / numOfRowSeats`; and construction with capacity
100 and 7 seats per row is rejected. -/
theorem aircraft_invariant :
    (∀ id m c n a, mkAircraftModel id m c n = .ok a → aircraftInv a) ∧
    (∀ j a, aircraftFromJson j = .ok a → aircraftInv a) ∧
    (∀ a c a', aircraftInv a → a.setCapacity c = .ok a' → aircraftInv a') ∧
    (∀ a n a', aircraftInv a → a.setNumOfRowSeats n = .ok a' → aircraftInv a') ∧
    (∀ a m, aircraftInv a → aircraftInv (a.setModel m)) ∧
    (∀ id m, ∃ e, mkAircraftModel id m 100 7 = .error e) := by
  refine ⟨?_, ?_, ?_, ?_, ?_, ?_⟩
  · intro id m c n a h
    unfold mkAircraftModel at h
    split_ifs at h with h1 h2 h3 h4 h5
    obtain rfl := (Except.ok.inj h).symm
    unfold aircraftInv
    dsimp only
    exact ⟨by omega, by omega, by omega, by omega, rfl⟩
  · intro j a h
    unfold aircraftFromJson at h
    split_ifs at h with h1 h2 h3 h4 h5 h6
    obtain rfl := (Except.ok.inj h).symm
    unfold aircraftInv
    dsimp only
    exact ⟨by omega, by omega, by omega, by omega, rfl⟩
  · intro a c a' hinv h
    unfold AircraftModel.setCapacity at h
    split_ifs at h with h1 h2
    obtain rfl := (Except.ok.inj h).symm
    obtain ⟨-, i2, i3, -, -⟩ := hinv
    unfold aircraftInv
    dsimp only
    exact ⟨by omega, i2, i3, by omega, rfl⟩
  · intro a n a' hinv h
    unfold AircraftModel.setNumOfRowSeats at h
    split_ifs at h with h1 h2 h3
    obtain rfl := (Except.ok.inj h).symm
    obtain ⟨i1, -, -, -, -⟩ := hinv
    unfold aircraftInv
    dsimp only
    exact ⟨i1, by omega, by omega, by omega, rfl⟩
  · intro a m hinv
    exact hinv
  · intro id m
    by_cases hm : m = ""
    · exact ⟨"Aircraft model cannot be empty.", by unfold mkAircraftModel; rw [if_pos hm]⟩
    · refine ⟨"Aircraft capacity must be a multiple of the number of seats per row.", ?_⟩
      unfold mkAircraftModel
      rw [if_neg hm, if_neg (by omega), if_neg (by omega), if_neg (by omega),
        if_pos (by decide)]

/-- Witness for C7 at a concrete aircraft (120 seats, 6 per row) and the
concrete rejected input 100/7. -/
theorem aircraft_invariant_witness :
    aircraftInv ⟨"AC-001", "Boeing 737", 120, 6, 20⟩ ∧
    (∃ e, mkAircraftModel "AC-9" "A320" 100 7 = .error e) :=
  ⟨aircraft_invariant.1 "AC-001" "Boeing 737" 120 6 _
      (by rfl),
    aircraft_invariant.2.2.2.2.2 "AC-9" "A320"⟩

lemma natDigits_ne_nil {n : Nat} : natDigits n ≠ [] := by
  rw [natDigits]
  split <;> simp

lemma intToChars_nonneg {i : Int} (h : 0 ≤ i) : intToChars i = natDigits i.toNat := by
  rw [intToChars, if_neg (by omega)]

lemma pad2_ne_nil {i : Int} : pad2 i ≠ [] := by
  unfold pad2
  intro h
  rcases List.append_eq_nil.mp h with ⟨-, h2⟩
  rcases Int.lt_or_le i 0 with hneg | hpos
  · rw [intToChars, if_pos hneg] at h2
    cases h2
  · rw [intToChars_nonneg hpos] at h2
    exact natDigits_ne_nil h2

lemma getD_set_self {α : Type} (l : List α) (i : Nat) (a d : α) (h : i < l.length) :
    (l.set i a).getD i d = a := by
  induction l generalizing i with
  | nil => simp at h
  | cons x t ih =>
    cases i with
    | zero => rfl
    | succ n =>
      simp only [List.set_cons_succ, List.getD_cons_succ]
      exact ih n (by simpa using h)

lemma getD_set_ne {α : Type} (l : List α) (i j : Nat) (a d : α) (h : ¬ (i = j)) :
    (l.set i a).getD j d = l.getD j d := by
  induction l generalizing i j with
  | nil => rfl
  | cons x t ih =>
    cases i with
    | zero =>
      cases j with
      | zero => exact absurd rfl h
      | succ m => rfl
    | succ n =>
      cases j with
      | zero => rfl
      | succ m =>
        simp only [List.set_cons_succ, List.getD_cons_succ]
        exact ih n m (fun he => h (by rw [he]))

lemma getD_mem {α : Type} (l : List α) (n : Nat) (d : α) (h : n < l.length) :
    l.getD n d ∈ l := by
  induction l generalizing n with
  | nil => simp at h
  | cons x t ih =>
    cases n with
    | zero => simp [List.getD_cons_zero]
    | succ m =>
      simp only [List.getD_cons_succ]
      exact List.mem_cons_of_mem x (ih m (by simpa using h))

lemma set_of_length_le {α : Type} (l : List α) (i : Nat) (a : α) (h : l.length ≤ i) :
    l.set i a = l := by
  induction l generalizing i with
  | nil => rfl
  | cons x t ih =>
    cases i with
    | zero => simp at h
    | succ n => simp only [List.set_cons_succ]; rw [ih n (by simpa using h)]

lemma findFlightById_id {fls : List FlightModel} {fid : String} {fl : FlightModel}
    (h : findFlightById fls fid = some fl) : fl.flightId = fid := by
  have := List.find?_some h
  simpa using this

lemma findFlightById_update_self {fls : List FlightModel} {fid : String}
    {nf fl : FlightModel} (hnf : nf.flightId = fid)
    (h : findFlightById fls fid = some fl) :
    findFlightById (updateFlightById fls fid nf) fid = some nf := by
  induction fls with
  | nil => simp [findFlightById] at h
  | cons g t ih =>
    unfold findFlightById at h
    unfold findFlightById updateFlightById
    simp only [List.map_cons]
    by_cases hg : g.flightId = fid
    · rw [if_pos hg]
      rw [List.find?_cons_of_pos _ (by simpa using hnf)]
    · rw [if_neg hg]
      rw [List.find?_cons_of_neg _ (by simpa using hg)]
      rw [List.find?_cons_of_neg _ (by simpa using hg)] at h
      exact ih h

lemma findFlightById_update_ne {fls : List FlightModel} {fid fid' : String}
    {nf : FlightModel} (hnf : nf.flightId = fid) (hne : ¬ (fid' = fid)) :
    findFlightById (updateFlightById fls fid nf) fid' = findFlightById fls fid' := by
  induction fls with
  | nil => rfl
  | cons g t ih =>
    unfold findFlightById updateFlightById at ih ⊢
    simp only [List.map_cons]
    by_cases hg : g.flightId = fid
    · rw [if_pos hg]
      rw [List.find?_cons_of_neg _ (by simp [hnf]; exact fun he => hne he.symm),
        List.find?_cons_of_neg _ (by simp [hg]; exact fun he => hne he.symm)]
      exact ih
    · rw [if_neg hg]
      by_cases hg' : g.flightId = fid'
      · rw [List.find?_cons_of_pos _ (by simpa using hg'),
          List.find?_cons_of_pos _ (by simpa using hg')]
      · rw [List.find?_cons_of_neg _ (by simpa using hg'),
          List.find?_cons_of_neg _ (by simpa using hg')]
        exact ih

lemma findReservationById_cons_self (res : ReservationModel)
    (rest : List ReservationModel) :
    findReservationById (res :: rest) res.reservationId = some res := by
  unfold findReservationById
  rw [List.find?_cons_of_pos _ (by simp)]

lemma findReservationById_filter (rs : List ReservationModel) (rid : String) :
    findReservationById (rs.filter (fun r => ¬ (r.reservationId = rid))) rid = none := by
  unfold findReservationById
  rw [List.find?_eq_none]
  intro r hr
  have := (List.mem_filter.mp hr).2
  simpa using this

lemma getSeatIndicesCore_cases (nr n : Int) (s : List Char) :
    getSeatIndicesCore nr n s = (-1, -1) ∨
    ∃ r c : Nat, getSeatIndicesCore nr n s = ((r : Int), (c : Int)) ∧
      (r : Int) < nr ∧ (c : Int) < n := by
  unfold getSeatIndicesCore
  split_ifs with h1
  · left; rfl
  dsimp only
  split_ifs with h2 h3
  · left; rfl
  · left; rfl
  · cases hst : stoiChars (s.takeWhile isSeatDigit) with
    | none => left; rfl
    | some rowNum =>
      dsimp only
      split_ifs with h4
      · left; rfl
      · right
        push_neg at h3 h4
        refine ⟨(rowNum - 1).toNat,
          ((s.dropWhile isSeatDigit).headD ' ').toNat - 65, ?_, by omega, by omega⟩
        rw [Prod.mk.injEq]
        constructor <;> omega

lemma getSeatIndicesFn_cases (aircrafts : List AircraftModel) (fl : FlightModel)
    (seat : List Char) :
    getSeatIndicesFn aircrafts fl seat = (-1, -1) ∨
    ∃ ac : AircraftModel, ∃ r c : Nat, findAircraftById aircrafts fl.aircraftId = some ac ∧
      getSeatIndicesFn aircrafts fl seat = ((r : Int), (c : Int)) ∧
      (r : Int) < ac.numOfRows ∧ (c : Int) < ac.numOfRowSeats := by
  unfold getSeatIndicesFn
  cases h : findAircraftById aircrafts fl.aircraftId with
  | none => left; rfl
  | some ac =>
    rcases getSeatIndicesCore_cases ac.numOfRows ac.numOfRowSeats seat with hc | ⟨r, c, hc, hr, hcn⟩
    · left; exact hc
    · right; exact ⟨ac, r, c, rfl, hc, hr, hcn⟩

lemma getSeatIndicesFn_congr {aircrafts : List AircraftModel} {fl fl2 : FlightModel}
    (h : fl2.aircraftId = fl.aircraftId) (seat : List Char) :
    getSeatIndicesFn aircrafts fl2 seat = getSeatIndicesFn aircrafts fl seat := by
  unfold getSeatIndicesFn
  rw [h]

/-- What `setSeatStatus` does: the decoded cell is written (readable back
when the grid has the aircraft's dimensions), every other cell and every
other field is untouched. -/
lemma setSeatStatus_spec {aircrafts : List AircraftModel} {fl fl2 : FlightModel}
    {seat : List Char} {b : Bool}
    (hset : setSeatStatusFn aircrafts fl seat b = some fl2) :
    fl2.flightId = fl.flightId ∧ fl2.origin = fl.origin ∧
    fl2.destination = fl.destination ∧ fl2.departureTime = fl.departureTime ∧
    fl2.arrivalTime = fl.arrivalTime ∧ fl2.aircraftId = fl.aircraftId ∧
    fl2.crewMemberIds = fl.crewMemberIds ∧
    (flightDimsOK aircrafts fl = true → getSeatStatusFn aircrafts fl2 seat = some b) ∧
    (∀ r' c' : Nat,
      ¬ (((r' : Int), (c' : Int)) = getSeatIndicesFn aircrafts fl seat) →
      seatCell fl2 r' c' = seatCell fl r' c') := by
  rcases getSeatIndicesFn_cases aircrafts fl seat with hidx | ⟨ac, r, c, hac, hidx, hr, hc⟩
  · unfold setSeatStatusFn at hset
    rw [hidx] at hset
    simp at hset
  have hne1 : ¬ (((r : Int), (c : Int)).1 = -1 ∨ ((r : Int), (c : Int)).2 = -1) := by
    intro hcon
    rcases hcon with h | h <;> (dsimp only at h; omega)
  unfold setSeatStatusFn at hset
  rw [hidx, if_neg hne1] at hset
  have htn : ((r : Int)).toNat = r ∧ ((c : Int)).toNat = c := by omega
  rw [htn.1, htn.2] at hset
  obtain rfl := (Option.some.inj hset).symm
  refine ⟨rfl, rfl, rfl, rfl, rfl, rfl, rfl, ?_, ?_⟩
  · intro hdims
    unfold flightDimsOK at hdims
    rw [hac] at hdims
    simp only [Bool.and_eq_true, decide_eq_true_eq, List.all_eq_true] at hdims
    obtain ⟨hlen, hrows⟩ := hdims
    have hrlt : r < fl.seatMap.length := by omega
    have hclt : c < (fl.seatMap.getD r []).length := by
      have := hrows (fl.seatMap.getD r []) (getD_mem _ _ _ hrlt)
      simp only [decide_eq_true_eq] at this
      omega
    have hidx2 : getSeatIndicesFn aircrafts
        { fl with seatMap := fl.seatMap.set r ((fl.seatMap.getD r []).set c b) } seat =
        ((r : Int), (c : Int)) := by
      exact hidx
    unfold getSeatStatusFn
    dsimp only
    rw [hidx2, if_neg hne1, htn.1, htn.2]
    unfold seatCell
    dsimp only
    rw [getD_set_self _ _ _ _ hrlt, getD_set_self _ _ _ _ hclt]
  · intro r' c' hne
    rw [hidx, Prod.mk.injEq] at hne
    push_neg at hne
    unfold seatCell
    dsimp only
    by_cases hrr : r' = r
    · subst hrr
      have hcc : ¬ (c' = c) := by
        intro hcc
        exact (hne (by rfl)) (by omega)
      by_cases hrlt : r' < fl.seatMap.length
      · rw [getD_set_self _ _ _ _ hrlt, getD_set_ne _ _ _ _ _ (fun he => hcc he.symm)]
      · rw [set_of_length_le _ _ _ (by omega)]
    · rw [getD_set_ne _ _ _ _ _ (fun he => hrr he.symm)]

lemma createPaymentFn_fst_none {s : SysState} {p m : String} {a : Rat}
    {d : PaymentDetails} {pid : String}
    (h : (createPaymentFn s p a m d pid).1 = none) :
    createPaymentFn s p a m d pid = (none, s) := by
  unfold createPaymentFn at h ⊢
  cases hs : createPaymentStrategy m d with
  | none => rfl
  | some strat =>
    rw [hs] at h
    dsimp only at h ⊢
    split_ifs at h ⊢ <;> first | rfl | exact absurd h (by simp)

lemma createPaymentFn_some {s : SysState} {p m : String} {a : Rat}
    {d : PaymentDetails} {pid : String} {pay : PaymentModel} {s1 : SysState}
    (h : createPaymentFn s p a m d pid = (some pay, s1)) :
    pay.paymentId = pid ∧ s1 = { s with payments := pay :: s.payments } := by
  unfold createPaymentFn at h
  cases hs : createPaymentStrategy m d with
  | none => rw [hs] at h; simp at h
  | some strat =>
    rw [hs] at h
    dsimp only at h
    split_ifs at h
    · simp at h
    · simp at h
    · simp at h
    · rw [Prod.mk.injEq] at h
      obtain ⟨h1, h2⟩ := h
      obtain rfl := (Option.some.inj h1).symm
      exact ⟨rfl, h2.symm⟩

/-- Claim C3. In `addReservation`, once the passenger, flight, free seat and
price have been resolved, a failing payment creation makes the call
return no reservation with the observable state unchanged: no
reservation is added, the seat grid is not mutated, and the passenger's
stored loyalty points are untouched (the adjusted value is only a local
until the reservation is stored). -/
theorem addReservation_payment_failure_no_mutation
    (s : SysState) (flightId seatNumber passengerId paymentMethod : String)
    (pd : PaymentDetails) (pid rid : String) (u : UserRec) (fl : FlightModel)
    (price : Rat)
    (hu : findUserById s.users passengerId = some u)
    (hrole : u.role = UserType.Passenger)
    (hfl : findFlightById s.flights flightId = some fl)
    (hseat : getSeatStatusFn s.aircrafts fl seatNumber.data = some false)
    (hprice : getSeatPriceFn seatNumber.data u.loyaltyPoints = some price)
    (hpay : (createPaymentFn s passengerId price paymentMethod pd pid).1 = none) :
    addReservation s flightId seatNumber passengerId paymentMethod pd pid rid =
      .ok (none, s) := by
  unfold addReservation
  rw [hu]
  dsimp only
  rw [if_neg (fun hn => hn hrole), hfl]
  dsimp only
  rw [hseat]
  dsimp only
  rw [hprice]
  dsimp only
  rw [createPaymentFn_fst_none hpay]

/-- Concrete price of seat "12A" (row 12 → 150, window 'A' → +20) with no
loyalty points. -/
lemma getSeatPrice_12A_eval : getSeatPriceFn "12A".data 0 = some 170 := by
  have hst : stoiChars ("12A".data.dropLast) = some 12 := by decide
  unfold getSeatPriceFn
  rw [if_neg (by decide), hst]
  dsimp only
  rw [if_pos (by decide), if_neg (by decide), if_pos (by decide)]
  norm_num [fmin]

/-- Witness for C3: booking with the unknown payment method "bitcoin"
fails and leaves the concrete state untouched. -/
theorem addReservation_payment_failure_no_mutation_witness :
    addReservation s0W "FL-001" "12A" "PAS-1" "bitcoin" pdW "PAY-1" "RES-1" =
      .ok (none, s0W) :=
  addReservation_payment_failure_no_mutation s0W "FL-001" "12A" "PAS-1" "bitcoin"
    pdW "PAY-1" "RES-1" pasW flW 170 rfl rfl rfl (by decide)
    getSeatPrice_12A_eval rfl

/-- Claim C2. A successful `addReservation` sets the booked seat's occupancy
cell to true (the flight looked up afterwards reports the seat
occupied), and as long as the seat stays occupied, any subsequent
`addReservation` for the same seat on the same flight returns no
reservation and leaves the state untouched. -/
theorem booking_marks_seat_occupied_and_blocks
    (s : SysState) (flightId seatNumber passengerId paymentMethod : String)
    (pd : PaymentDetails) (pid rid : String) (res : ReservationModel) (s' : SysState)
    (fl : FlightModel)
    (hfl : findFlightById s.flights flightId = some fl)
    (hdims : flightDimsOK s.aircrafts fl = true)
    (hok : addReservation s flightId seatNumber passengerId paymentMethod pd pid rid =
      .ok (some res, s')) :
    (s'.aircrafts = s.aircrafts ∧
      ∃ fl2, findFlightById s'.flights flightId = some fl2 ∧
        getSeatStatusFn s'.aircrafts fl2 seatNumber.data = some true) ∧
    (∀ (t : SysState) (fl3 : FlightModel) (passengerId2 paymentMethod2 : String)
        (pd2 : PaymentDetails) (pid2 rid2 : String),
      findFlightById t.flights flightId = some fl3 →
      getSeatStatusFn t.aircrafts fl3 seatNumber.data = some true →
      addReservation t flightId seatNumber passengerId2 paymentMethod2 pd2 pid2 rid2 =
        .ok (none, t)) := by
  constructor
  · unfold addReservation at hok
    cases hu : findUserById s.users passengerId with
    | none => rw [hu] at hok; simp at hok
    | some u =>
    rw [hu] at hok
    dsimp only at hok
    by_cases hrole : u.role = UserType.Passenger
    case neg => rw [if_pos hrole] at hok; simp at hok
    rw [if_neg (fun hn => hn hrole), hfl] at hok
    dsimp only at hok
    cases hst : getSeatStatusFn s.aircrafts fl seatNumber.data with
    | none => rw [hst] at hok; simp at hok
    | some b =>
    rw [hst] at hok
    cases b with
    | true => dsimp only at hok; simp at hok
    | false =>
    dsimp only at hok
    cases hpr : getSeatPriceFn seatNumber.data u.loyaltyPoints with
    | none => rw [hpr] at hok; simp at hok
    | some price =>
    rw [hpr] at hok
    dsimp only at hok
    rcases hcp : createPaymentFn s passengerId price paymentMethod pd pid with ⟨o, s1⟩
    rw [hcp] at hok
    cases o with
    | none => dsimp only at hok; simp at hok
    | some pay =>
    dsimp only at hok
    obtain ⟨hpayid, hs1⟩ := createPaymentFn_some hcp
    cases hbr : buildReservation s1 rid flightId passengerId seatNumber pay.paymentId with
    | error e => rw [hbr] at hok; simp at hok
    | ok res0 =>
    rw [hbr] at hok
    dsimp only at hok
    by_cases hdup : (findReservationById s1.reservations res0.reservationId).isSome
    · rw [if_pos hdup] at hok; simp at hok
    rw [if_neg hdup] at hok
    subst hs1
    dsimp only at hok
    cases hset : setSeatStatusFn s.aircrafts fl seatNumber.data true with
    | none => rw [hset] at hok; simp at hok
    | some fl2 =>
    rw [hset, findReservationById_cons_self] at hok
    obtain ⟨hres, hs4⟩ := Prod.mk.inj (Except.ok.inj hok)
    obtain ⟨hid2, -, -, -, -, -, -, hread, -⟩ := setSeatStatus_spec hset
    have hflid : fl.flightId = flightId := findFlightById_id hfl
    refine hs4 ▸ ⟨rfl, fl2, ?_, ?_⟩
    · dsimp only
      rw [← hflid]
      exact findFlightById_update_self (by rw [hid2]) (hflid ▸ hfl)
    · exact hread hdims
  · intro t fl3 passengerId2 paymentMethod2 pd2 pid2 rid2 hfl3 hocc
    unfold addReservation
    cases hu2 : findUserById t.users passengerId2 with
    | none => rfl
    | some u2 =>
    dsimp only
    by_cases hrole2 : u2.role = UserType.Passenger
    · rw [if_neg (fun hn => hn hrole2), hfl3]
      dsimp only
      rw [hocc]
    · rw [if_pos hrole2]

/-- Concrete evaluation of the successful booking used by the C2
witness. -/
lemma addReservation_s0W_eval :
    addReservation s0W "FL-001" "12A" "PAS-1" "cash" pdW "PAY-1" "RES-1" =
      .ok (some resW, s1W) := by
  unfold addReservation
  rw [show findUserById s0W.users "PAS-1" = some pasW from rfl]
  dsimp only
  rw [if_neg (by decide)]
  rw [show findFlightById s0W.flights "FL-001" = some flW from rfl]
  dsimp only
  rw [show getSeatStatusFn s0W.aircrafts flW "12A".data = some false from by decide]
  dsimp only
  rw [show pasW.loyaltyPoints = (0 : Rat) from rfl, getSeatPrice_12A_eval]
  dsimp only
  rw [show createPaymentFn s0W "PAS-1" 170 "cash" pdW "PAY-1" =
    (some payW, ⟨[pasW], [acW], [flW], [], [payW]⟩) from ?_]
  rotate_left
  · unfold createPaymentFn
    rw [show createPaymentStrategy "cash" pdW = some PaymentStrategy.cash from rfl]
    dsimp only
    rw [if_neg (not_or.mpr ⟨by decide, by norm_num⟩), if_neg (by decide),
      if_neg (by decide)]
    rfl
  dsimp only
  rw [show buildReservation ⟨[pasW], [acW], [flW], [], [payW]⟩ "RES-1" "FL-001" "PAS-1"
    "12A" payW.paymentId = .ok resW from rfl]
  dsimp only
  rw [if_neg (by decide)]
  rw [show setSeatStatusFn [acW] flW "12A".data true = some flW2 from by decide]
  dsimp only
  rw [show findReservationById [resW] resW.reservationId = some resW from rfl]
  unfold s1W updateFlightById updateUserLoyalty
  norm_num [pasW, resW, flW2]

/-- Witness for C2 at the concrete booking: the seat reads occupied
afterwards, and a rebooking attempt on the occupied seat is refused with
the state unchanged. -/
theorem booking_marks_seat_occupied_and_blocks_witness :
    ((s1W.aircrafts = s0W.aircrafts ∧
      ∃ fl2, findFlightById s1W.flights "FL-001" = some fl2 ∧
        getSeatStatusFn s1W.aircrafts fl2 "12A".data = some true) ∧
    (∀ (t : SysState) (fl3 : FlightModel) (passengerId2 paymentMethod2 : String)
        (pd2 : PaymentDetails) (pid2 rid2 : String),
      findFlightById t.flights "FL-001" = some fl3 →
      getSeatStatusFn t.aircrafts fl3 "12A".data = some true →
      addReservation t "FL-001" "12A" passengerId2 paymentMethod2 pd2 pid2 rid2 =
        .ok (none, t))) ∧
    addReservation s1W "FL-001" "12A" "PAS-1" "cash" pdW "PAY-2" "RES-2" =
      .ok (none, s1W) := by
  have h := booking_marks_seat_occupied_and_blocks s0W "FL-001" "12A" "PAS-1" "cash"
    pdW "PAY-1" "RES-1" resW s1W flW rfl (by decide) addReservation_s0W_eval
  exact ⟨h, h.2 s1W flW2 "PAS-1" "cash" pdW "PAY-2" "RES-2" rfl (by decide)⟩

/-- Claim C5, amended. `deleteReservation` on an existing reservation:
when its flight exists and the seat still decodes against the flight's
aircraft, the seat is freed, the reservation is deleted and `true` is
returned; when the flight no longer exists the seat update is silently
skipped and the reservation is still deleted with `true` returned.
(When the flight exists but the seat no longer decodes — e.g. its
aircraft was deleted — the function instead throws and deletes nothing;
see the counterexample.) -/
theorem deleteReservation_frees_seat_and_deletes
    (s : SysState) (rid : String) (res : ReservationModel)
    (hres : findReservationById s.reservations rid = some res) :
    (∀ fl fl2, findFlightById s.flights res.flightId = some fl →
      setSeatStatusFn s.aircrafts fl res.seatNumber.data false = some fl2 →
      flightDimsOK s.aircrafts fl = true →
      ∃ s', deleteReservation s rid = .ok (true, s') ∧
        findReservationById s'.reservations rid = none ∧
        findFlightById s'.flights res.flightId = some fl2 ∧
        getSeatStatusFn s'.aircrafts fl2 res.seatNumber.data = some false ∧
        s'.aircrafts = s.aircrafts ∧ s'.users = s.users ∧ s'.payments = s.payments) ∧
    (findFlightById s.flights res.flightId = none →
      ∃ s', deleteReservation s rid = .ok (true, s') ∧
        findReservationById s'.reservations rid = none ∧
        s'.flights = s.flights ∧ s'.aircrafts = s.aircrafts ∧
        s'.users = s.users ∧ s'.payments = s.payments) := by
  have hdel : repoDeleteReservation s.reservations rid =
      (true, s.reservations.filter (fun r => ¬ (r.reservationId = rid))) := by
    unfold repoDeleteReservation
    unfold findReservationById at hres
    rw [hres]
  constructor
  · intro fl fl2 hfl hset hdims
    obtain ⟨hid2, -, -, -, -, -, -, hread, -⟩ := setSeatStatus_spec hset
    unfold deleteReservation
    rw [hres]
    dsimp only
    rw [hfl]
    dsimp only
    rw [hset]
    dsimp only
    rw [hdel]
    refine ⟨_, rfl, ?_, ?_, ?_, rfl, rfl, rfl⟩
    · exact findReservationById_filter _ _
    · dsimp only
      have hflid : fl.flightId = res.flightId := findFlightById_id hfl
      rw [← hflid]
      exact findFlightById_update_self (by rw [hid2]) (hflid ▸ hfl)
    · exact hread hdims
  · intro hfl
    unfold deleteReservation
    rw [hres]
    dsimp only
    rw [hfl]
    dsimp only
    rw [hdel]
    exact ⟨_, rfl, findReservationById_filter _ _, rfl, rfl, rfl, rfl⟩

/-- Claim C5, counterexample. The reservation and its flight both exist, yet
`deleteReservation` throws (the seat cannot be unbooked because the
flight's aircraft is gone) instead of returning `true`, and the
reservation is not deleted. -/
theorem deleteReservation_throws_on_orphaned_aircraft :
    findReservationById sC5.reservations "RES-9" = some resOrph ∧
    findFlightById sC5.flights resOrph.flightId = some flW ∧
    deleteReservation sC5 "RES-9" = .error "Invalid seat number: 1A" :=
  ⟨rfl, rfl, rfl⟩

/-- Witness for the amended C5: deleting the booking created in the C2
witness frees seat "12A" again, and deleting a reservation whose flight
is gone still succeeds. -/
theorem deleteReservation_frees_seat_and_deletes_witness :
    (∃ s', deleteReservation s1W "RES-1" = .ok (true, s') ∧
      findReservationById s'.reservations "RES-1" = none ∧
      findFlightById s'.flights resW.flightId = some flW ∧
      getSeatStatusFn s'.aircrafts flW resW.seatNumber.data = some false ∧
      s'.aircrafts = s1W.aircrafts ∧ s'.users = s1W.users ∧
      s'.payments = s1W.payments) ∧
    (∃ s', deleteReservation ⟨[], [], [], [resOrph], []⟩ "RES-9" = .ok (true, s') ∧
      findReservationById s'.reservations "RES-9" = none ∧
      s'.flights = (⟨[], [], [], [resOrph], []⟩ : SysState).flights ∧
      s'.aircrafts = (⟨[], [], [], [resOrph], []⟩ : SysState).aircrafts ∧
      s'.users = (⟨[], [], [], [resOrph], []⟩ : SysState).users ∧
      s'.payments = (⟨[], [], [], [resOrph], []⟩ : SysState).payments) := by
  constructor
  · have h := (deleteReservation_frees_seat_and_deletes s1W "RES-1" resW rfl).1
      flW2 flW rfl (by decide) (by decide)
    obtain ⟨s', h1, h2, h3, h4, h5, h6, h7⟩ := h
    exact ⟨s', h1, h2, h3, h4, h5, h6, h7⟩
  · exact (deleteReservation_frees_seat_and_deletes ⟨[], [], [], [resOrph], []⟩
      "RES-9" resOrph rfl).2 rfl

/-- Claim C10. Constructing a `ReservationModel` from JSON mutates the
referenced flight as a side effect: on success, the flight's cell for
the reservation's seat is set occupied exactly when the status is
CONFIRMED (and freed when CANCELLED), while every other cell, every
other field of that flight, every other flight, and the other
repositories are unchanged. -/
theorem reservationFromJson_mutates_flight
    (s : SysState) (j : ReservationJSON) (res : ReservationModel) (s' : SysState)
    (fl : FlightModel)
    (hfl : findFlightById s.flights j.flightId = some fl)
    (hdims : flightDimsOK s.aircrafts fl = true)
    (h : reservationFromJson s j = (.ok res, s')) :
    res.seatNumber = j.seatNumber ∧
    s'.users = s.users ∧ s'.aircrafts = s.aircrafts ∧
    s'.reservations = s.reservations ∧ s'.payments = s.payments ∧
    ∃ fl2, findFlightById s'.flights j.flightId = some fl2 ∧
      fl2.flightId = fl.flightId ∧ fl2.origin = fl.origin ∧
      fl2.destination = fl.destination ∧ fl2.departureTime = fl.departureTime ∧
      fl2.arrivalTime = fl.arrivalTime ∧ fl2.aircraftId = fl.aircraftId ∧
      fl2.crewMemberIds = fl.crewMemberIds ∧
      getSeatStatusFn s'.aircrafts fl2 j.seatNumber.data =
        some (decide (res.status = ReservationStatus.CONFIRMED)) ∧
      (∀ r' c' : Nat,
        ¬ (((r' : Int), (c' : Int)) =
          getSeatIndicesFn s.aircrafts fl j.seatNumber.data) →
        seatCell fl2 r' c' = seatCell fl r' c') ∧
      (∀ fid, ¬ (fid = j.flightId) →
        findFlightById s'.flights fid = findFlightById s.flights fid) := by
  unfold reservationFromJson at h
  split_ifs at h with hpre
  case neg => simp at h
  rw [hfl] at h
  dsimp only at h
  cases huser : findUserById s.users j.passengerId with
  | none => rw [huser] at h; simp at h
  | some u =>
  rw [huser] at h
  dsimp only at h
  cases hstat : parseReservationStatus j.status with
  | none => rw [hstat] at h; simp at h
  | some st =>
  rw [hstat] at h
  dsimp only at h
  cases hset : setSeatStatusFn s.aircrafts fl j.seatNumber.data
      (decide (st = ReservationStatus.CONFIRMED)) with
  | none => rw [hset] at h; simp at h
  | some fl2 =>
  rw [hset] at h
  dsimp only at h
  cases hpay : findPaymentById s.payments j.paymentId with
  | none => rw [hpay] at h; simp at h
  | some pay =>
  rw [hpay] at h
  dsimp only at h
  obtain ⟨hres, hs'⟩ := Prod.mk.inj h
  obtain rfl := (Except.ok.inj hres).symm
  subst hs'
  obtain ⟨hid2, ho2, hd2, hdep2, harr2, hair2, hcrew2, hread, hframe⟩ :=
    setSeatStatus_spec hset
  have hflid : fl.flightId = j.flightId := findFlightById_id hfl
  refine ⟨rfl, rfl, rfl, rfl, rfl, fl2, ?_, hid2, ho2, hd2, hdep2, harr2, hair2,
    hcrew2, ?_, hframe, ?_⟩
  · dsimp only
    rw [← hflid]
    exact findFlightById_update_self (by rw [hid2]) (hflid ▸ hfl)
  · exact hread hdims
  · intro fid hfid
    dsimp only
    exact findFlightById_update_ne (by rw [hid2]) (by rw [hflid]; exact hfid)

/-- Witness for C10 at the concrete load of a CONFIRMED reservation. -/
theorem reservationFromJson_mutates_flight_witness :
    resC10.seatNumber = jC10.seatNumber ∧
    (⟨[pasW], [acW], [flC10], [], [payC10]⟩ : SysState).users = sC10.users ∧
    (⟨[pasW], [acW], [flC10], [], [payC10]⟩ : SysState).aircrafts = sC10.aircrafts ∧
    (⟨[pasW], [acW], [flC10], [], [payC10]⟩ : SysState).reservations = sC10.reservations ∧
    (⟨[pasW], [acW], [flC10], [], [payC10]⟩ : SysState).payments = sC10.payments ∧
    ∃ fl2, findFlightById (⟨[pasW], [acW], [flC10], [], [payC10]⟩ : SysState).flights
        jC10.flightId = some fl2 ∧
      fl2.flightId = flW.flightId ∧ fl2.origin = flW.origin ∧
      fl2.destination = flW.destination ∧ fl2.departureTime = flW.departureTime ∧
      fl2.arrivalTime = flW.arrivalTime ∧ fl2.aircraftId = flW.aircraftId ∧
      fl2.crewMemberIds = flW.crewMemberIds ∧
      getSeatStatusFn (⟨[pasW], [acW], [flC10], [], [payC10]⟩ : SysState).aircrafts fl2
          jC10.seatNumber.data =
        some (decide (resC10.status = ReservationStatus.CONFIRMED)) ∧
      (∀ r' c' : Nat,
        ¬ (((r' : Int), (c' : Int)) =
          getSeatIndicesFn sC10.aircrafts flW jC10.seatNumber.data) →
        seatCell fl2 r' c' = seatCell flW r' c') ∧
      (∀ fid, ¬ (fid = jC10.flightId) →
        findFlightById (⟨[pasW], [acW], [flC10], [], [payC10]⟩ : SysState).flights fid =
          findFlightById sC10.flights fid) :=
  reservationFromJson_mutates_flight sC10 jC10 resC10
    ⟨[pasW], [acW], [flC10], [], [payC10]⟩ flW rfl (by decide) rfl

end AMS

